import Mathlib

/-!
Verification of the Moltbot Gateway WebSocket client (src/client.py).

Shallow embedding: JSON payloads are modelled by the inductive `Value`;
Python dicts become insertion-ordered association lists; asyncio futures
become single-assignment slots (`Option (Except Value Value)`), and the
side effects performed on futures by a routine (`set_result` /
`set_exception`) are returned explicitly as a list of completions.

Modelling notes, fixed once for the whole file:
- `Value.getD v k d` models Python's `v.get(k, d)` on a mapping. In the
  source, calling `.get` on a non-mapping raises `AttributeError`; the model
  totalises it by returning the default. Every theorem below applies it only
  to values that are mappings at the places the source requires a mapping,
  so source and model agree on all inputs the theorems speak about.
- `Value.asString` reads a text field as a string; the protocol's text items
  carry strings, and the source's default for a missing text field is `""`.
- Python truthiness (`if x:`) is modelled by `Value.truthy`.
-/

namespace Moltbot

/-- JSON-shaped values, the wire payloads of the protocol. -/
inductive Value where
  | null
  | bool (b : Bool)
  | int (n : Int)
  | str (s : String)
  | list (items : List Value)
  | dict (fields : List (String × Value))

/-- Lookup in an insertion-ordered association list (Python dict read). -/
def alistGet {α : Type} : List (String × α) → String → Option α
  | [], _ => none
  | (k, v) :: rest, key => if k = key then some v else alistGet rest key

/-- Remove a key's binding (Python `del d[k]`). -/
def alistErase {α : Type} : List (String × α) → String → List (String × α)
  | [], _ => []
  | (k, v) :: rest, key => if k = key then rest else (k, v) :: alistErase rest key

/-- Update an existing key in place (Python `d[k] = v` on a present key). -/
def alistSet {α : Type} : List (String × α) → String → α → List (String × α)
  | [], _, _ => []
  | (k, v) :: rest, key, w => if k = key then (k, w) :: rest else (k, v) :: alistSet rest key w

/-- Python `v.get(key, d)` on mappings (see the modelling notes above). -/
def Value.getD (v : Value) (key : String) (d : Value) : Value :=
  match v with
  | .dict fields => (alistGet fields key).getD d
  | _ => d

/-- Python truthiness of a JSON value. -/
def Value.truthy : Value → Bool
  | .null => false
  | .bool b => b
  | .int n => n != 0
  | .str s => s ≠ ""
  | .list xs => !xs.isEmpty
  | .dict fs => !fs.isEmpty

/-- `v == "s"` for a string literal comparison in the source. -/
def Value.isStr (v : Value) (s : String) : Bool :=
  match v with
  | .str t => t = s
  | _ => false

/-- `isinstance(v, dict)`. -/
def Value.isDict : Value → Bool
  | .dict _ => true
  | _ => false

/-- Read a text field as a string (see modelling notes). -/
def Value.asString : Value → String
  | .str s => s
  | _ => ""

/-- Elements of a JSON list (the source iterates `for item in content`). -/
def Value.asList : Value → List Value
  | .list xs => xs
  | _ => []

/-- `PendingRequest` (client.py:21-25): the asyncio future is a
single-assignment slot, `none` while unfilled. -/
structure PendingRequest where
  future : Option (Except Value Value) := none
  expect_final : Bool := false

/-- A registered event handler, reduced to an identity and whether its
invocation raises; invocation order is observed through traces. -/
structure Handler where
  id : Nat
  fails : Bool := false

/-- Invoking a handler callback; `.error` models the callback raising. -/
def runHandler (h : Handler) : Except String Unit :=
  if h.fails then .error "handler raised" else .ok ()

/-- The mutable fields of `MoltbotClient` (client.py:38-46) that the claims
touch. `recv_task`: `none` = no task; `some c` = a task exists, `c` = it was
cancelled. `ws`: whether a socket object is held. -/
structure ClientState where
  connected : Bool := false
  pending : List (String × PendingRequest) := []
  event_handlers : List (String × List Handler) := []
  ws : Bool := false
  closed : Bool := false
  recv_task : Option Bool := none
  connect_nonce : Option Value := none

/-- A completion effect performed on a pending request's future:
`(req_id, .ok payload)` for `set_result`, `(req_id, .error msg)` for
`set_exception`. -/
abbrev Completion := String × Except Value Value

/-- `MoltbotClient._handle_response` (client.py:269-291). Returns the new
state and the completions performed. A `req_id` that is not a non-empty
string is falsy or not a key of the (string-keyed) pending dict, so the
frame is discarded. -/
def handle_response (st : ClientState) (response : Value) : ClientState × List Completion :=
  match response.getD "id" .null with
  | .str req_id =>
    if req_id = "" then (st, [])  -- `if not req_id`
    else
      match alistGet st.pending req_id with
      | none => (st, [])          -- `req_id not in self.pending`
      | some pending =>
        let payload := response.getD "payload" .null
        -- intermediate ack: `if pending.expect_final and isinstance(payload, dict)`
        if pending.expect_final && payload.isDict && (payload.getD "status" .null).isStr "accepted" then
          (st, [])
        else
          let st' := { st with pending := alistErase st.pending req_id }
          if (response.getD "ok" .null).truthy then
            (st', [(req_id, .ok payload)])
          else
            let error := response.getD "error" (.dict [])
            let error_msg := error.getD "message" (.str "未知错误")
            (st', [(req_id, .error error_msg)])
  | _ => (st, [])  -- missing id (falsy) or non-string id (never a dict key)

/-- `MoltbotClient.disconnect` (client.py:107-127). -/
def disconnect (st : ClientState) : ClientState × List Completion :=
  let st1 : ClientState :=
    { st with
      closed := true
      connected := false
      -- `if self._recv_task: self._recv_task.cancel()` (field keeps the task)
      recv_task := st.recv_task.map fun _ => true
      -- `if self.ws: await self.ws.close(); self.ws = None`
      ws := false }
  -- `set_exception` on every pending future that is not done, then clear
  let fails : List Completion :=
    st.pending.filterMap fun p =>
      if p.2.future.isNone then some (p.1, .error (.str "连接已关闭")) else none
  ({ st1 with pending := [] }, fails)

/-- `MoltbotClient._cleanup_connection` (client.py:80-105). -/
def cleanup_connection (st : ClientState) : ClientState × List Completion :=
  let st1 : ClientState :=
    { st with
      connected := false
      recv_task := none   -- cancelled and awaited, then `self._recv_task = None`
      ws := false }
  let fails : List Completion :=
    st.pending.filterMap fun p =>
      if p.2.future.isNone then some (p.1, .error (.str "连接已关闭")) else none
  ({ st1 with pending := [] }, fails)

/-- `MoltbotClient._send_connect` (client.py:129-201), reduced to its result.
`received` is the frame read while waiting for the handshake response
(client.py:181), decoded; `none` models `asyncio.TimeoutError` (and any other
exception while sending/receiving, which the same `except` arms turn into
`None`). Returns the payload on success, `none` on any failure. -/
def send_connect_result (req_id : String) (received : Option Value) : Option Value :=
  match received with
  | none => none  -- timeout / exception: logged, returns None
  | some response =>
    if (response.getD "type" .null).isStr "res" && (response.getD "id" .null).isStr req_id then
      if (response.getD "ok" .null).truthy then
        some (response.getD "payload" .null)
      else
        none  -- `ok` falsy: handshake failure, returns None
    else
      none    -- unexpected response (wrong type or mismatched id)

/-- `MoltbotClient.connect` (client.py:48-78). `socket_opens` is whether
`websockets.connect` succeeds; `hello` is `_send_connect`'s result (`none`
when it returned None; an exception inside it is caught there and also
yields None). Output: (new state, completions performed on old pending
futures, returned boolean). -/
def connect (st : ClientState) (socket_opens : Bool) (hello : Option Value) :
    ClientState × List Completion × Bool :=
  if st.closed then (st, [], false)
  else
    let (st1, e1) := cleanup_connection st
    if socket_opens then
      let st2 := { st1 with ws := true }
      -- `if hello:` — Python truthiness of the returned payload
      if (match hello with | some h => h.truthy | none => false) then
        ({ st2 with connected := true, recv_task := some false }, e1, true)
      else
        let (st3, e3) := cleanup_connection st2
        (st3, e1 ++ e3, false)
    else
      -- `websockets.connect` raised: `except` arm cleans up and returns False
      let (st3, e3) := cleanup_connection st1
      (st3, e1 ++ e3, false)

/-- `MoltbotClient.on_event` (client.py:349-353). -/
def on_event (st : ClientState) (event_name : String) (h : Handler) : ClientState :=
  match alistGet st.event_handlers event_name with
  | none => { st with event_handlers := st.event_handlers ++ [(event_name, [h])] }
  | some hs => { st with event_handlers := alistSet st.event_handlers event_name (hs ++ [h]) }

/-- One guarded handler-invocation pass (client.py:255-259 and 263-267):
`try: await handler(...) except Exception: logger.error(...)`. The trace
records `(handler id, invocation succeeded)` for every handler, in order. -/
def runHandlersGuarded (hs : List Handler) : List (Nat × Bool) :=
  hs.map fun h =>
    match runHandler h with
    | .ok _ => (h.id, true)
    | .error _ => (h.id, false)

/-- `MoltbotClient._handle_event` (client.py:233-267). Returns the new state
and the trace of handler invocations. `connect.challenge` records the nonce
and re-issues the handshake asynchronously (the spawned task does not touch
the fields modelled here); `tick` is dropped. -/
def handle_event (st : ClientState) (event : Value) : ClientState × List (Nat × Bool) :=
  let event_name := event.getD "event" .null
  let payload := event.getD "payload" .null
  if event_name.isStr "connect.challenge" then
    -- `nonce = payload.get("nonce") if payload else None; if nonce: ...`
    let nonce := if payload.truthy then payload.getD "nonce" .null else .null
    if nonce.truthy then ({ st with connect_nonce := some nonce }, [])
    else (st, [])
  else if event_name.isStr "tick" then
    (st, [])
  else
    -- `self.event_handlers.get(event_name, [])`: keys are strings
    let handlers :=
      match event_name with
      | .str s => (alistGet st.event_handlers s).getD []
      | _ => []
    let all_handlers := (alistGet st.event_handlers "*").getD []
    (st, runHandlersGuarded handlers ++ runHandlersGuarded all_handlers)

/-- The per-call accumulator state of `chat_send` (client.py:399-402):
`response_text`, `response_error`, `response_complete`. -/
structure ChatCallState where
  response_text : String := ""
  response_error : Option Value := none
  response_complete : Bool := false

/-- One iteration of the `delta` loop of `handle_chat_event`
(client.py:419-429) on the pair (response_text, on_delta invocations): a
`text`-typed item overwrites `response_text` with its text and, when a
callback was supplied and the text is non-empty, invokes the callback. -/
def deltaStep (on_delta : Bool) (acc : String × List String) (item : Value) :
    String × List String :=
  if (item.getD "type" .null).isStr "text" then
    let delta_text := (item.getD "text" (.str "")).asString
    (delta_text,
     if on_delta && delta_text ≠ "" then acc.2 ++ [delta_text] else acc.2)
  else acc

/-- One iteration of the `final` loop of `handle_chat_event`
(client.py:434-437) on `response_text`. -/
def finalStep (a : String) (item : Value) : String :=
  if (item.getD "type" .null).isStr "text" then (item.getD "text" (.str "")).asString else a

/-- The inner closure `handle_chat_event` (client.py:404-450). `on_delta`
is whether a delta callback was supplied; the second output lists the
fragments the callback was invoked with, in order (a callback that raises is
caught at client.py:428-429, so the invocation still counts and iteration
continues). -/
def handle_chat_event (session_key : String) (on_delta : Bool) (payload : Value)
    (st : ChatCallState) : ChatCallState × List String :=
  if !((payload.getD "sessionKey" .null).isStr session_key) then (st, [])
  else
    let state := payload.getD "state" .null
    let msg := payload.getD "message" .null
    if state.isStr "delta" && msg.truthy then
      let content := msg.getD "content" (.list [])
      let r := content.asList.foldl (deltaStep on_delta) (st.response_text, [])
      ({ st with response_text := r.1 }, r.2)
    else if state.isStr "final" then
      let st1 :=
        if msg.truthy then
          let content := msg.getD "content" (.list [])
          { st with response_text := content.asList.foldl finalStep st.response_text }
        else st
      ({ st1 with response_complete := true }, [])
    else if state.isStr "error" then
      ({ st with response_error := some (payload.getD "errorMessage" (.str "未知错误"))
                 response_complete := true }, [])
    else if state.isStr "aborted" then
      ({ st with response_error := some (.str "请求被中止")
                 response_complete := true }, [])
    else (st, [])

/-- Python `str.strip()`: drop whitespace from both ends. -/
def strip (s : String) : String :=
  String.mk (((s.data.dropWhile Char.isWhitespace).reverse.dropWhile
    Char.isWhitespace).reverse)

/-- The return expression of `chat_send` (client.py:475):
`return response_text.strip() if response_text else None`. -/
def chat_send_return (response_text : String) : Option String :=
  if response_text ≠ "" then some (strip response_text) else none

/-- The `finally` block of `chat_send` (client.py:480-486): if a "chat" key
exists, remove the first occurrence of the closure from its list
(`list.remove`); a `ValueError` (closure absent) is caught and ignored. -/
def removeFirstHandler : List Handler → Handler → List Handler
  | [], _ => []  -- `ValueError` caught: list unchanged
  | g :: rest, h => if g.id = h.id then rest else g :: removeFirstHandler rest h

/-- The `finally` block of `chat_send` applied to the client state. -/
def chat_send_cleanup (st : ClientState) (h : Handler) : ClientState :=
  match alistGet st.event_handlers "chat" with
  | none => st  -- `if "chat" in self.event_handlers` is false
  | some hs => { st with event_handlers := alistSet st.event_handlers "chat" (removeFirstHandler hs h) }

/-- `MoltbotClient.chat_send` (client.py:355-486), reduced to its effect on
the handler registry and its result. `h` is the per-call closure (a fresh
object each call); `ack` is what `self.request("chat.send", ...)` did
(`.error` = it raised: not-connected, request timeout, or remote `ok:false`);
`final` is the `ChatCallState` at the moment `response_complete` was set, or
`none` if `asyncio.wait_for(response_complete.wait(), timeout)` timed out.
The try body never touches `event_handlers`; the `finally` runs on every
path. -/
def chat_send_run (st : ClientState) (h : Handler) (ack : Except Value Value)
    (final : Option ChatCallState) : ClientState × Except Value (Option String) :=
  let st1 := on_event st "chat" h
  let result : Except Value (Option String) :=
    match ack with
    | .error e => .error e                       -- `self.request` raised
    | .ok r =>
      -- `if isinstance(result, dict)` and `status == "error"`
      if r.isDict && (r.getD "status" .null).isStr "error" then
        .error (r.getD "summary" (.str "未知错误"))  -- raise chat.send 失败
      else
        match final with
        | none => .error (.str "TimeoutError")   -- overall wait timed out, re-raised
        | some cs =>
          match cs.response_error with
          | some e => .error e                   -- `raise response_error`
          | none => .ok (chat_send_return cs.response_text)
  (chat_send_cleanup st1 h, result)

/-- The backoff sequence of `MoltbotClient._reconnect` (client.py:293-312):
`reconnectBackoff n` is the wait before attempt `n` when the first `n`
attempts all failed (`backoff = 1` initially; after each failed attempt
`backoff = min(backoff * 2, max_backoff)` with `max_backoff = 30`). -/
def reconnectBackoff : Nat → Nat
  | 0 => 1
  | n + 1 => min (reconnectBackoff n * 2) 30

/-- The `payload` of a `chat` event with state `delta` for session `sk`
(protocol shape, spec §6). -/
def chatDeltaPayload (sk : String) (content : List Value) : Value :=
  Value.dict [("sessionKey", .str sk), ("state", .str "delta"),
              ("message", Value.dict [("content", Value.list content)])]

/-- The `payload` of a `chat` event with state `final` for session `sk`. -/
def chatFinalPayload (sk : String) (content : List Value) : Value :=
  Value.dict [("sessionKey", .str sk), ("state", .str "final"),
              ("message", Value.dict [("content", Value.list content)])]

/-- `finalStep` lifted to an `Option` accumulator, to name the overall
effect of the loops: the text of the last `text`-typed item wins. -/
def lastTextStep (a : Option String) (item : Value) : Option String :=
  if (item.getD "type" .null).isStr "text" then
    some ((item.getD "text" (.str "")).asString)
  else a

/-- The write the `for item in content` loops perform on `response_text`:
the last `text`-typed item's text, if any. -/
def lastText (content : List Value) : Option String :=
  content.foldl lastTextStep none

/-- The intermediate-ack test of `_handle_response` (client.py:278-281):
the payload is a mapping whose `status` is `"accepted"`. -/
def isAcceptedAck (payload : Value) : Bool :=
  payload.isDict && (payload.getD "status" .null).isStr "accepted"

/-- A failed handshake exchange (client.py:181-201): the wait for the
response timed out (or raised), or the frame read is not a `res`, or its id
does not match, or its `ok` is not truthy. -/
def handshake_failure (req_id : String) (received : Option Value) : Prop :=
  received = none ∨
  ∃ resp, received = some resp ∧
    ((resp.getD "type" .null).isStr "res" = false ∨
     (resp.getD "id" .null).isStr req_id = false ∨
     (resp.getD "ok" .null).truthy = false)

-- ### Helper lemmas

theorem alistGet_append {α : Type} (l m : List (String × α)) (k : String) :
    alistGet (l ++ m) k =
      (match alistGet l k with
       | some v => some v
       | none => alistGet m k) := by
  induction l with
  | nil => simp [alistGet]
  | cons p rest ih =>
    by_cases hk : p.1 = k <;> simp [alistGet, hk, ih]

theorem alistGet_alistSet_self {α : Type} (l : List (String × α)) (k : String) (v w : α)
    (h : alistGet l k = some v) : alistGet (alistSet l k w) k = some w := by
  induction l with
  | nil => simp [alistGet] at h
  | cons p rest ih =>
    by_cases hk : p.1 = k
    · simp [alistGet, alistSet, hk]
    · simp [alistGet, alistSet, hk] at h ⊢
      exact ih h

theorem alistGet_alistSet_ne {α : Type} (l : List (String × α)) (k k' : String) (w : α)
    (h : k' ≠ k) : alistGet (alistSet l k w) k' = alistGet l k' := by
  induction l with
  | nil => simp [alistGet, alistSet]
  | cons p rest ih =>
    obtain ⟨pk, pv⟩ := p
    by_cases hk : pk = k
    · subst hk
      simp only [alistSet, if_pos rfl, alistGet]
      rw [if_neg fun hp => h hp.symm, if_neg fun hp => h hp.symm]
    · simp only [alistSet, if_neg hk, alistGet]
      by_cases hk2 : pk = k' <;> simp [hk2, ih]

theorem removeFirstHandler_append (hs : List Handler) (h : Handler)
    (hfresh : ∀ g ∈ hs, g.id ≠ h.id) : removeFirstHandler (hs ++ [h]) h = hs := by
  induction hs with
  | nil => simp [removeFirstHandler]
  | cons g rest ih =>
    have hg : g.id ≠ h.id := hfresh g (List.mem_cons_self ..)
    simp [removeFirstHandler, hg]
    exact ih fun g' hg' => hfresh g' (List.mem_cons_of_mem _ hg')

theorem filterMap_all_some {α β : Type} (l : List α) (f : α → Option β) (g : α → β)
    (h : ∀ a ∈ l, f a = some (g a)) : l.filterMap f = l.map g := by
  induction l with
  | nil => simp
  | cons a rest ih =>
    rw [List.filterMap_cons, h a (List.mem_cons_self ..), List.map_cons]
    rw [ih fun a' ha' => h a' (List.mem_cons_of_mem _ ha')]

theorem runHandlersGuarded_eq_map (hs : List Handler) :
    runHandlersGuarded hs = hs.map fun h => (h.id, !h.fails) := by
  unfold runHandlersGuarded
  congr 1
  funext h
  cases hf : h.fails <;> simp [runHandler, hf]

theorem reconnectBackoff_le_thirty (n : Nat) : reconnectBackoff n ≤ 30 := by
  induction n with
  | zero => decide
  | succ n _ => exact min_le_right _ _

theorem foldl_deltaStep_fst (content : List Value) (od : Bool) (acc : String)
    (cs : List String) :
    (content.foldl (deltaStep od) (acc, cs)).1 = content.foldl finalStep acc := by
  induction content generalizing acc cs with
  | nil => rfl
  | cons item rest ih =>
    simp only [List.foldl_cons]
    cases ht : (item.getD "type" .null).isStr "text" <;>
      simp only [deltaStep, finalStep, ht, if_true, if_false, Bool.false_eq_true] <;>
      exact ih _ _

theorem foldl_finalStep_getD (content : List Value) (o : Option String) (acc : String) :
    content.foldl finalStep (o.getD acc) = (content.foldl lastTextStep o).getD acc := by
  induction content generalizing o with
  | nil => rfl
  | cons item rest ih =>
    simp only [List.foldl_cons]
    cases ht : (item.getD "type" .null).isStr "text"
    · simp only [finalStep, lastTextStep, ht, Bool.false_eq_true, if_false]
      exact ih o
    · simp only [finalStep, lastTextStep, ht, if_true]
      exact ih (some ((item.getD "text" (.str "")).asString))

theorem foldl_finalStep_lastText (content : List Value) (acc : String) :
    content.foldl finalStep acc = (lastText content).getD acc := by
  have := foldl_finalStep_getD content none acc
  simpa [lastText] using this

theorem foldl_deltaStep_trace_ne (content : List Value) (od : Bool) (acc : String)
    (cs : List String) (h : ∀ f ∈ cs, f ≠ "") :
    ∀ f ∈ (content.foldl (deltaStep od) (acc, cs)).2, f ≠ "" := by
  induction content generalizing acc cs with
  | nil => exact h
  | cons item rest ih =>
    simp only [List.foldl_cons]
    cases ht : (item.getD "type" .null).isStr "text"
    · simp only [deltaStep, ht, Bool.false_eq_true, if_false]
      exact ih _ _ h
    · simp only [deltaStep, ht, if_true]
      apply ih
      intro f hf
      by_cases hc : (od && !((item.getD "text" (.str "")).asString == "")) = true
      · rw [if_pos ?_] at hf
        · rcases List.mem_append.1 hf with hf1 | hf2
          · exact h f hf1
          · have hne : (item.getD "text" (.str "")).asString ≠ "" := by
              have h2 := (Bool.and_eq_true _ _ ▸ hc).2
              simpa using h2
            rw [List.mem_singleton.1 hf2]
            exact hne
        · simpa using hc
      · rw [if_neg ?_] at hf
        · exact h f hf
        · simpa using hc

theorem handle_chat_event_delta (sk : String) (od : Bool) (content : List Value)
    (st : ChatCallState) :
    handle_chat_event sk od (chatDeltaPayload sk content) st =
      ({ st with
          response_text := (content.foldl (deltaStep od) (st.response_text, [])).1 },
       (content.foldl (deltaStep od) (st.response_text, [])).2) := by
  unfold handle_chat_event chatDeltaPayload
  simp [Value.getD, alistGet, Value.isStr, Value.truthy, Value.asList]

theorem handle_chat_event_final (sk : String) (od : Bool) (content : List Value)
    (st : ChatCallState) :
    handle_chat_event sk od (chatFinalPayload sk content) st =
      ({ st with
          response_text := content.foldl finalStep st.response_text
          response_complete := true }, []) := by
  unfold handle_chat_event chatFinalPayload
  simp [Value.getD, alistGet, Value.isStr, Value.truthy, Value.asList]

-- ### Claim theorems

/-- C1 (counterexample): the claim says a response with `ok == false`
completes an `expect_final` request, but `_handle_response` checks the
`status == "accepted"` ack test first (client.py:278-281), before looking at
`ok`. Concretely: one pending `expect_final` request `"r1"`, and a `res`
frame for `"r1"` with `ok := false` and payload `{status: "accepted"}` —
the frame performs no completion and the entry stays in the pending map,
contradicting the claim's "the first subsequent response ... that has
either a different status or ok == false completes the request". -/
theorem C1_accepted_ok_false_counterexample :
    handle_response
      { pending := [("r1", { future := none, expect_final := true })] }
      (Value.dict [("type", .str "res"), ("id", .str "r1"), ("ok", .bool false),
                   ("payload", Value.dict [("status", .str "accepted")]),
                   ("error", Value.dict [("message", .str "boom")])]) =
      ({ pending := [("r1", { future := none, expect_final := true })] }, []) ∧
    alistGet
      (handle_response
        { pending := [("r1", { future := none, expect_final := true })] }
        (Value.dict [("type", .str "res"), ("id", .str "r1"), ("ok", .bool false),
                     ("payload", Value.dict [("status", .str "accepted")]),
                     ("error", Value.dict [("message", .str "boom")])])).1.pending "r1" =
      some ({ future := none, expect_final := true } : PendingRequest) := by
  exact ⟨rfl, rfl⟩

/-- C1 (amended): for a pending request registered with `expect_final =
true`, any response frame whose payload is a mapping with status
`"accepted"` leaves the request pending — no completion, the entry stays —
regardless of `ok`; and a response with the same id whose payload is NOT
such a mapping completes the request: success with the payload when `ok`
is truthy, failure with the response's error message otherwise. -/
theorem C1_expect_final_ack_amended (st : ClientState) (req_id : String)
    (preq : PendingRequest) (resp : Value)
    (hid : resp.getD "id" .null = .str req_id) (hne : req_id ≠ "")
    (hmem : alistGet st.pending req_id = some preq) (hef : preq.expect_final = true)
    ( _herr : (resp.getD "error" (.dict [])).isDict = true) :
    (isAcceptedAck (resp.getD "payload" .null) = true →
       handle_response st resp = (st, [])) ∧
    (isAcceptedAck (resp.getD "payload" .null) = false →
       handle_response st resp =
         ({ st with pending := alistErase st.pending req_id },
          [(req_id,
            if (resp.getD "ok" .null).truthy then Except.ok (resp.getD "payload" .null)
            else Except.error
              ((resp.getD "error" (.dict [])).getD "message" (.str "未知错误")))])) := by
  constructor
  · intro hacc
    unfold handle_response
    rw [hid]
    simp only [hne, if_neg, hmem, hef]
    have : isAcceptedAck (resp.getD "payload" .null) = true := hacc
    simp [isAcceptedAck] at this
    simp [this]
  · intro hacc
    unfold handle_response
    rw [hid]
    simp only [hne, if_neg, hmem, hef]
    have : isAcceptedAck (resp.getD "payload" .null) = false := hacc
    simp only [isAcceptedAck, Bool.and_eq_false_iff] at this
    cases hok : (resp.getD "ok" .null).truthy <;>
      rcases this with h1 | h1 <;> simp [h1, hok]

/-- C1 (witness). -/
theorem C1_expect_final_ack_witness :
    handle_response
      { pending := [("r2", { future := none, expect_final := true })] }
      (Value.dict [("type", .str "res"), ("id", .str "r2"), ("ok", .bool true),
                   ("payload", Value.dict [("status", .str "ok")]),
                   ("error", Value.dict [])]) =
      ({ pending := [] }, [("r2", Except.ok (Value.dict [("status", .str "ok")]))]) := by
  have h := C1_expect_final_ack_amended
    { pending := [("r2", { future := none, expect_final := true })] }
    "r2" { future := none, expect_final := true }
    (Value.dict [("type", .str "res"), ("id", .str "r2"), ("ok", .bool true),
                 ("payload", Value.dict [("status", .str "ok")]),
                 ("error", Value.dict [])])
    rfl (by decide) rfl rfl rfl
  exact h.2 rfl

/-- C2 (counterexample): the claim says the texts of all `text`-typed items
are concatenated; `handle_chat_event` instead assigns each item's text to
`response_text` in turn (client.py:419-422), so the LAST one wins. On a
matching `delta` event whose message content is two text items `"a"`, `"b"`,
the accumulator ends as `"b"`, not the concatenation `"ab"`. -/
theorem C2_concatenation_counterexample :
    (handle_chat_event "s" false
      (chatDeltaPayload "s"
        [Value.dict [("type", .str "text"), ("text", .str "a")],
         Value.dict [("type", .str "text"), ("text", .str "b")]])
      { response_text := "", response_error := none, response_complete := false }
    ).1.response_text = "b" ∧ "b" ≠ "a" ++ "b" := by
  exact ⟨rfl, by decide⟩

/-- C2 (amended): for a matching chat event with state `delta` or `final`
whose message content has at least one `text`-typed item, the text of the
LAST such item (not a concatenation) replaces the accumulated response text
— the result does not depend on the previous accumulator — and a `final`
event additionally completes the call, so the last `final` event's text is
the authoritative value. -/
theorem C2_overwrite_amended (sk : String) (od : Bool) (content : List Value)
    (t : String) (st : ChatCallState) (h : lastText content = some t) :
    (handle_chat_event sk od (chatDeltaPayload sk content) st).1.response_text = t ∧
    (handle_chat_event sk od (chatFinalPayload sk content) st).1.response_text = t ∧
    (handle_chat_event sk od (chatFinalPayload sk content) st).1.response_complete = true := by
  refine ⟨?_, ?_, ?_⟩
  · rw [handle_chat_event_delta]
    show (content.foldl (deltaStep od) (st.response_text, [])).1 = t
    rw [foldl_deltaStep_fst, foldl_finalStep_lastText, h]
    rfl
  · rw [handle_chat_event_final]
    show content.foldl finalStep st.response_text = t
    rw [foldl_finalStep_lastText, h]
    rfl
  · rw [handle_chat_event_final]

/-- C2 (witness). -/
theorem C2_overwrite_witness :
    (handle_chat_event "s" false
      (chatDeltaPayload "s" [Value.dict [("type", .str "text"), ("text", .str "hello")]])
      { response_text := "OLD", response_error := none, response_complete := false }
    ).1.response_text = "hello" := by
  exact (C2_overwrite_amended "s" false
    [Value.dict [("type", .str "text"), ("text", .str "hello")]] "hello"
    { response_text := "OLD", response_error := none, response_complete := false }
    rfl).1

/-- C4: in `_reconnect`, the wait before the first attempt is 1, after each
failed attempt the wait doubles capped at 30, the wait never exceeds 30, and
the sequence of waits across consecutive failed attempts is non-decreasing.
`reconnectBackoff n` is the wait before attempt `n` after `n` failures. -/
theorem C4_reconnect_backoff :
    reconnectBackoff 0 = 1 ∧
    (∀ n, reconnectBackoff (n + 1) = min (reconnectBackoff n * 2) 30) ∧
    (∀ n, reconnectBackoff n ≤ 30) ∧
    (∀ n, reconnectBackoff n ≤ reconnectBackoff (n + 1)) := by
  refine ⟨rfl, fun n => rfl, reconnectBackoff_le_thirty, fun n => ?_⟩
  show reconnectBackoff n ≤ min (reconnectBackoff n * 2) 30
  exact le_min (by omega) (reconnectBackoff_le_thirty n)

/-- C8: a `res` frame whose id is missing, or is not a key of the pending
map, changes no client state (pending map, handler registry and connection
flags are all those of the input state) and performs no completion; the
routine is total, so no error is raised. -/
theorem C8_stale_response_no_effect (st : ClientState) (response : Value)
    (h : response.getD "id" .null = .null ∨
         ∀ s, response.getD "id" .null = .str s → alistGet st.pending s = none) :
    handle_response st response = (st, []) := by
  unfold handle_response
  cases hid : response.getD "id" .null with
  | str s =>
    by_cases hs : s = ""
    · simp [hs]
    · rcases h with hnull | hkey
      · rw [hid] at hnull; cases hnull
      · have hk := hkey s hid
        simp [hs, hk]
  | null => rfl
  | bool b => rfl
  | int n => rfl
  | list xs => rfl
  | dict fs => rfl

/-- C8 (witness). -/
theorem C8_stale_response_witness :
    handle_response
      { pending := [("a", { future := none, expect_final := false })] }
      (Value.dict [("type", .str "res"), ("id", .str "zzz"), ("ok", .bool true)]) =
      ({ pending := [("a", { future := none, expect_final := false })] }, []) := by
  exact C8_stale_response_no_effect _ _
    (Or.inr fun s hs => by
      injection hs with h2
      subst h2
      rfl)

/-- C9: `chat_send`'s success return (`response_text.strip() if
response_text else None`) is the absent value exactly when the accumulated
text is the empty string; a non-empty accumulator consisting only of
whitespace (its trim is empty) returns the trimmed empty string, not the
absent value. -/
theorem C9_empty_vs_whitespace (t : String) (h1 : t ≠ "") (h2 : strip t = "") :
    (∀ u : String, chat_send_return u = none ↔ u = "") ∧
    chat_send_return t = some "" := by
  constructor
  · intro u
    unfold chat_send_return
    by_cases hu : u = "" <;> simp [hu]
  · unfold chat_send_return
    simp [h1, h2]

/-- C9 (witness). -/
theorem C9_empty_vs_whitespace_witness :
    chat_send_return " " = some "" ∧ chat_send_return "" = none := by
  have h := C9_empty_vs_whitespace " " (by decide) (by decide)
  exact ⟨h.2, (h.1 "").mpr rfl⟩

/-- C10: during a chat streaming call, a matching `delta` event still
overwrites the accumulated text with the empty string when its text item is
empty, but the `on_delta` callback is invoked only with non-empty fragments
(first conjunct: every invoked fragment is non-empty, for any content and
whether or not a callback was supplied; rest: an event whose single text
item is `""` sets the accumulator to `""` and invokes no callback). -/
theorem C10_delta_empty_text (sk : String) (od : Bool) (st : ChatCallState)
    (content : List Value) :
    ((handle_chat_event sk od (chatDeltaPayload sk content) st).2.all
        fun f => f != "") = true ∧
    (handle_chat_event sk od
        (chatDeltaPayload sk [Value.dict [("type", .str "text"), ("text", .str "")]])
        st).1.response_text = "" ∧
    (handle_chat_event sk od
        (chatDeltaPayload sk [Value.dict [("type", .str "text"), ("text", .str "")]])
        st).2 = [] := by
  refine ⟨?_, ?_, ?_⟩
  · rw [handle_chat_event_delta]
    show ((content.foldl (deltaStep od) (st.response_text, [])).2.all
        fun f => f != "") = true
    rw [List.all_eq_true]
    intro f hf
    have hne := foldl_deltaStep_trace_ne content od st.response_text []
      (by intro g hg; cases hg) f hf
    simpa using hne
  · rw [handle_chat_event_delta]
    rfl
  · rw [handle_chat_event_delta]
    show (List.foldl (deltaStep od)
        (st.response_text, []) [Value.dict [("type", .str "text"), ("text", .str "")]]).2 = []
    simp [deltaStep, Value.getD, alistGet, Value.isStr, Value.asString]

/-- C3: disconnecting a client with N pending requests whose futures are
unfilled fails every one of them with the connection-closed error (one
completion per pending entry, in order, each carrying the connection-closed
message), leaves the pending map empty, and a second `disconnect()` on the
resulting closed state is a no-op: same state, no further completions. -/
theorem C3_disconnect_fails_all (st : ClientState)
    (hall : ∀ p ∈ st.pending, p.2.future = none) :
    (disconnect st).2 =
      st.pending.map (fun p => (p.1, Except.error (Value.str "连接已关闭"))) ∧
    (disconnect st).2.length = st.pending.length ∧
    (disconnect st).1.pending = [] ∧
    disconnect (disconnect st).1 = ((disconnect st).1, []) := by
  have h2 : (disconnect st).2 =
      st.pending.map fun p => (p.1, Except.error (Value.str "连接已关闭")) := by
    show st.pending.filterMap _ = _
    refine filterMap_all_some _ _ _ fun p hp => ?_
    rw [hall p hp]
    rfl
  refine ⟨h2, by rw [h2, List.length_map], rfl, ?_⟩
  cases hrt : st.recv_task <;> simp [disconnect, hrt]

/-- C3 (witness): two pending unfilled requests. -/
theorem C3_disconnect_witness :
    (disconnect { pending := [("a", { future := none, expect_final := false }),
                              ("b", { future := none, expect_final := true })],
                  connected := true, recv_task := some false }).2.length = 2 ∧
    (disconnect { pending := [("a", { future := none, expect_final := false }),
                              ("b", { future := none, expect_final := true })],
                  connected := true, recv_task := some false }).1.pending = [] := by
  have h := C3_disconnect_fails_all
    { pending := [("a", { future := none, expect_final := false }),
                  ("b", { future := none, expect_final := true })],
      connected := true, recv_task := some false }
    (by intro p hp; simp at hp; rcases hp with rfl | rfl <;> rfl)
  exact ⟨h.2.1.trans rfl, h.2.2.1⟩

/-- C5: for every exit of `chat_send` — successful resolution (`ack` ok,
`final` with no error), immediate error status in the acknowledgment,
chat `error`/`aborted` event (`final` with `response_error` set), overall
timeout (`final = none`), or the request raising (`ack` error) — the
temporary handler registered on `"chat"` is removed by the `finally` block:
the final registry's `"chat"` list equals the original one (so the per-call
closure is gone) and every other key is untouched. The per-call closure is
a fresh object, hence the freshness hypothesis. -/
theorem C5_chat_handler_cleanup (st : ClientState) (h : Handler)
    (ack : Except Value Value) (final : Option ChatCallState)
    (hfresh : ∀ g ∈ (alistGet st.event_handlers "chat").getD [], g.id ≠ h.id) :
    alistGet ((chat_send_run st h ack final).1).event_handlers "chat" =
      some ((alistGet st.event_handlers "chat").getD []) ∧
    (∀ k, k ≠ "chat" →
      alistGet ((chat_send_run st h ack final).1).event_handlers k =
        alistGet st.event_handlers k) := by
  have key : (chat_send_run st h ack final).1 =
      chat_send_cleanup (on_event st "chat" h) h := rfl
  rw [key]
  cases halist : alistGet st.event_handlers "chat" with
  | none =>
    -- a fresh "chat" entry [h] is appended, then h is removed, leaving []
    have hreg : (on_event st "chat" h).event_handlers =
        st.event_handlers ++ [("chat", [h])] := by
      unfold on_event
      rw [halist]
    have hget : alistGet (on_event st "chat" h).event_handlers "chat" = some [h] := by
      rw [hreg, alistGet_append, halist]
      rfl
    have hrem : removeFirstHandler [h] h = [] := by
      simp [removeFirstHandler]
    constructor
    · simp only [chat_send_cleanup, hget, hrem]
      rw [alistGet_alistSet_self _ _ [h] [] hget]
      rfl
    · intro k hk
      simp only [chat_send_cleanup, hget, hrem]
      rw [alistGet_alistSet_ne _ _ _ _ hk, hreg, alistGet_append]
      cases hgk : alistGet st.event_handlers k
      · simp only [hgk, alistGet]
        rw [if_neg fun hkk => hk hkk.symm]
      · simp only [hgk]
  | some hs =>
    have hfresh' : ∀ g ∈ hs, g.id ≠ h.id := by
      intro g hg
      refine hfresh g ?_
      rw [halist]
      exact hg
    have hreg : (on_event st "chat" h).event_handlers =
        alistSet st.event_handlers "chat" (hs ++ [h]) := by
      unfold on_event
      rw [halist]
    have hget : alistGet (on_event st "chat" h).event_handlers "chat" =
        some (hs ++ [h]) := by
      rw [hreg]
      exact alistGet_alistSet_self _ _ hs _ halist
    have hrem := removeFirstHandler_append hs h hfresh'
    constructor
    · simp only [chat_send_cleanup, hget, hrem]
      rw [alistGet_alistSet_self _ _ (hs ++ [h]) hs hget]
      rfl
    · intro k hk
      simp only [chat_send_cleanup, hget, hrem]
      rw [alistGet_alistSet_ne _ _ _ _ hk, hreg, alistGet_alistSet_ne _ _ _ _ hk]

/-- C5 (witness): a pre-existing "chat" handler and a wildcard key survive;
the temporary handler (id 9) is gone, on the timeout exit path. -/
theorem C5_chat_handler_cleanup_witness :
    alistGet ((chat_send_run
        { event_handlers := [("chat", [⟨1, false⟩]), ("*", [⟨2, false⟩])] }
        ⟨9, false⟩ (Except.ok Value.null) none).1).event_handlers "chat" =
      some [⟨1, false⟩] ∧
    alistGet ((chat_send_run
        { event_handlers := [("chat", [⟨1, false⟩]), ("*", [⟨2, false⟩])] }
        ⟨9, false⟩ (Except.ok Value.null) none).1).event_handlers "*" =
      some [⟨2, false⟩] := by
  have h := C5_chat_handler_cleanup
    { event_handlers := [("chat", [⟨1, false⟩]), ("*", [⟨2, false⟩])] }
    ⟨9, false⟩ (Except.ok Value.null) none
    (by intro g hg; simp [alistGet] at hg; subst hg; decide)
  exact ⟨h.1.trans rfl, (h.2 "*" (by decide)).trans rfl⟩

/-- C6: when the handshake does not succeed — the wait for the response
times out, or the received frame is not a `res`, has a mismatched id, or has
a falsy `ok` — `_send_connect` returns no payload and `connect()` returns
`false` rather than raising, the `connected` flag is false afterward, and no
receive-loop task is started. -/
theorem C6_handshake_failure (st : ClientState) (req_id : String)
    (received : Option Value) (hclosed : st.closed = false)
    (hfail : handshake_failure req_id received) :
    send_connect_result req_id received = none ∧
    (connect st true (send_connect_result req_id received)).2.2 = false ∧
    (connect st true (send_connect_result req_id received)).1.connected = false ∧
    (connect st true (send_connect_result req_id received)).1.recv_task = none := by
  have hres : send_connect_result req_id received = none := by
    rcases hfail with rfl | ⟨resp, rfl, hc⟩
    · rfl
    · unfold send_connect_result
      rcases hc with hc | hc | hc
      · simp [hc]
      · simp [hc]
      · cases houter : ((resp.getD "type" .null).isStr "res" &&
            (resp.getD "id" .null).isStr req_id) <;> simp [houter, hc]
  refine ⟨hres, ?_, ?_, ?_⟩ <;>
    rw [hres] <;> simp [connect, cleanup_connection, hclosed]

/-- C6 (witness): a malformed handshake response (an `event` frame instead
of the expected `res`). -/
theorem C6_handshake_failure_witness :
    send_connect_result "rid" (some (Value.dict [("type", .str "event")])) = none ∧
    (connect {} true
      (send_connect_result "rid" (some (Value.dict [("type", .str "event")])))).2.2 =
      false := by
  have h := C6_handshake_failure {} "rid"
    (some (Value.dict [("type", .str "event")])) rfl
    (Or.inr ⟨Value.dict [("type", .str "event")], rfl, Or.inl rfl⟩)
  exact ⟨h.1, h.2.1⟩

/-- C7: for an inbound event frame whose name is neither
`connect.challenge` nor `tick`, `_handle_event` leaves the client state
unchanged and invokes every handler registered for that exact name, in
registration order, followed by every wildcard handler — including the
handlers that raise (each invocation is individually guarded, so a raising
handler neither stops the iteration nor escapes `_handle_event`, which is a
total function). -/
theorem C7_event_dispatch_isolated (st : ClientState) (s : String) (payload : Value)
    (h1 : s ≠ "connect.challenge") (h2 : s ≠ "tick") :
    (handle_event st (Value.dict [("event", .str s), ("payload", payload)])).1 = st ∧
    (handle_event st (Value.dict [("event", .str s), ("payload", payload)])).2 =
      ((alistGet st.event_handlers s).getD []).map (fun g => (g.id, !g.fails)) ++
      ((alistGet st.event_handlers "*").getD []).map (fun g => (g.id, !g.fails)) := by
  unfold handle_event
  refine ⟨?_, ?_⟩ <;>
    simp [Value.getD, alistGet, Value.isStr, h1, h2, runHandlersGuarded_eq_map]

/-- C7 (witness): a raising handler (id 2) between two others; all three
appear in the trace, in order, with the failure recorded and contained. -/
theorem C7_event_dispatch_witness :
    (handle_event
      { event_handlers := [("custom.thing", [⟨1, false⟩, ⟨2, true⟩]), ("*", [⟨3, false⟩])] }
      (Value.dict [("event", .str "custom.thing"), ("payload", Value.null)])).2 =
      [(1, true), (2, false), (3, true)] := by
  have h := C7_event_dispatch_isolated
    { event_handlers := [("custom.thing", [⟨1, false⟩, ⟨2, true⟩]), ("*", [⟨3, false⟩])] }
    "custom.thing" Value.null (by decide) (by decide)
  exact h.2.trans rfl
